import Mathlib

/-!
Verification of the PyBnK WAV decoder (`bnk/bnk.py`) against its
natural-language specification.

The module under audit decodes a Brüel & Kjær WAV container: a fixed
header (function `WavHeader`, lines 27-156), a vendor trailer parsed out
of the bytes after the payload, and a sample-scaling front end
(function `OpenWav`, lines 158-199).

Shallow embedding conventions:
* a file is a `List Nat` of byte values;
* Python `bytes`/`numpy` slicing clamps at the end of the data, so
  `bytesAt` is `drop`/`take`;
* `int.from_bytes(_, 'little', signed=False)` on an empty slice is `0`,
  which `leNat` reproduces;
* `bytes.decode()` is modelled by mapping byte values to characters
  (exact for the ASCII data this format carries);
* fallible paths return `Except PyErr _`, where `PyErr` records the
  Python exception the code actually raises: `IndexError` carries no
  payload, `ValueError` from `float(...)` carries the offending token
  text (as the real message does), `KeyError` carries the dict key.
-/

/-- Python exceptions that the decoder can raise. -/
inductive PyErr where
  | indexError : PyErr
  | valueErrorFloat : String → PyErr
  | keyError : String → PyErr
deriving DecidableEq, Repr

deriving instance DecidableEq for Except

-- The Batteries rational-number operations are `@[irreducible]`, which
-- blocks `decide`/`rfl` evaluation of the decoder on concrete inputs;
-- restore the usual reducibility for this development.
attribute [local semireducible] Rat.mul Rat.add Rat.inv

/-- Bytes `x[off : off+len]` with Python clamping semantics. -/
def bytesAt (x : List Nat) (off len : Nat) : List Nat :=
  (x.drop off).take len

/-- Little-endian unsigned integer of a byte list, as
`int.from_bytes(bs, byteorder='little', signed=False)`. -/
def leNat (bs : List Nat) : Nat :=
  bs.foldr (fun b acc => b + 256 * acc) 0

/-- Decode a byte list to a string one byte per character, as the code's
`"".join(chr(a) for a in bs)` and (for ASCII data) `bs.decode()`. -/
def strOf (bs : List Nat) : String :=
  String.mk (bs.map Char.ofNat)

/-- ASCII bytes of a string, used to build concrete test inputs. -/
def asciiBytes (s : String) : List Nat :=
  s.toList.map Char.toNat

/-- First index at which `needle` occurs in `hay`, Python `str.find`
(we keep `Option` instead of `-1` and translate at use sites). -/
def strFind (needle : List Char) : List Char → Option Nat
  | [] => if needle = [] then some 0 else none
  | c :: t =>
    if needle.isPrefixOf (c :: t) then some 0
    else (strFind needle t).map (fun i => i + 1)

/-- Last index at which character `c` occurs. -/
def lastIdxOf (c : Char) : List Char → Option Nat
  | [] => none
  | a :: t =>
    match lastIdxOf c t with
    | some i => some (i + 1)
    | none => if a = c then some 0 else none

/-- Fuelled worker for `splitOnSub`. -/
def splitOnSubAux (sep : List Char) : Nat → List Char → List (List Char)
  | 0, s => [s]
  | fuel + 1, s =>
    match strFind sep s with
    | none => [s]
    | some i => s.take i :: splitOnSubAux sep fuel (s.drop (i + sep.length))

/-- Python `str.split(sep)` with unlimited splits (empty pieces kept). -/
def splitOnSub (sep s : List Char) : List (List Char) :=
  if sep = [] then [s] else splitOnSubAux sep (s.length + 1) s

/-- Python `str.split(sep, 1)`: `some (before, after)` at the first
occurrence, `none` when `sep` does not occur (the Python call returns a
one-element list there, so indexing `[1]` raises `IndexError`). -/
def splitFirst (sep s : List Char) : Option (List Char × List Char) :=
  match strFind sep s with
  | none => none
  | some i => some (s.take i, s.drop (i + sep.length))

/-- Fuelled worker for `replaceAll`. -/
def replaceAllAux (needle repl : List Char) : Nat → List Char → List Char
  | 0, s => s
  | fuel + 1, s =>
    match strFind needle s with
    | none => s
    | some i => s.take i ++ repl ++ replaceAllAux needle repl fuel (s.drop (i + needle.length))

/-- Python `str.replace(needle, repl)`: every occurrence, left to right. -/
def replaceAll (needle repl s : List Char) : List Char :=
  if needle = [] then s else replaceAllAux needle repl (s.length + 1) s

/-- Python `bytes.split(sep_byte)`: split on every occurrence of the
byte, keeping empty pieces (so `b"".split` gives one empty piece). -/
def splitOnByte (sep : Nat) : List Nat → List (List Nat)
  | [] => [[]]
  | b :: t =>
    let r := splitOnByte sep t
    if b = sep then [] :: r
    else
      match r with
      | [] => [[b]]
      | h :: t2 => (b :: h) :: t2

/-- Value of a digit string, most significant first. -/
def digitsToNat (ds : List Char) : Nat :=
  ds.foldl (fun acc c => 10 * acc + (c.toNat - 48)) 0

/-- Optional exponent suffix of a float literal; `some 0` for no suffix,
`none` when trailing characters do not form a valid exponent. -/
def expPart : List Char → Option Int
  | [] => some 0
  | c :: rest =>
    if c = 'e' ∨ c = 'E' then
      match rest with
      | '-' :: ds =>
        if ds ≠ [] ∧ ds.all Char.isDigit then some (-(digitsToNat ds : Int)) else none
      | '+' :: ds =>
        if ds ≠ [] ∧ ds.all Char.isDigit then some ((digitsToNat ds : Int)) else none
      | ds =>
        if ds ≠ [] ∧ ds.all Char.isDigit then some ((digitsToNat ds : Int)) else none
    else none

/-- Python `float(s)` on decimal literals, landing in `ℚ` (the sample
values and calibration constants of this format are exact decimals).
Signs, a fractional part and an exponent are accepted; the inf/nan and
underscore spellings, never produced by the device, are omitted. -/
def pyFloat (s : String) : Option ℚ :=
  let cs := s.toList
  let sgn : ℚ := if cs.head? = some '-' then -1 else 1
  let cs1 := match cs with
    | '-' :: t => t
    | '+' :: t => t
    | _ => cs
  let ip := cs1.takeWhile Char.isDigit
  let rest1 := cs1.dropWhile Char.isDigit
  match rest1 with
  | '.' :: rest2 =>
    let fp := rest2.takeWhile Char.isDigit
    let rest3 := rest2.dropWhile Char.isDigit
    if ip = [] ∧ fp = [] then none
    else
      match expPart rest3 with
      | none => none
      | some e =>
        some (sgn * ((digitsToNat ip : ℚ) + (digitsToNat fp : ℚ) / (10 : ℚ) ^ fp.length) * (10 : ℚ) ^ e)
  | _ =>
    if ip = [] then none
    else
      match expPart rest1 with
      | none => none
      | some e => some (sgn * (digitsToNat ip : ℚ) * (10 : ℚ) ^ e)

/-- Header/metadata record produced by `WavHeader` (`bnk.py` builds a
dict; the calibration keys exist only when the trailer is non-empty, so
they are `Option` fields here, `none` meaning the key is absent). -/
structure BnkHeader where
  ChunkID : String
  ChunkSize : Nat
  Format : String
  Subchunk1ID : String
  Subchunk1Size : Nat
  AudioFormat : Nat
  NumChannels : Nat
  SampleRate : Nat
  ByteRate : Nat
  BlockAlign : Nat
  BitsPerSample : Nat
  Meta : String
  MetaSize : Nat
  Subchunk2ID : String
  Subchunk2Size : Nat
  ExtraBytes : List Nat
  Date : Option String
  Transducer : Option (List String)
  Sensitivity : Option (List ℚ)
  Scale : Option (List ℚ)
  UnitName : Option String
  Label : Option String
  ChannelUnits : Option (List String)
  ChannelNames : Option (List String)
deriving DecidableEq, Repr

/-- Channel count field, 2 little-endian bytes at offset 22 of the
(at most) 33000-byte window `np.fromfile` reads. -/
def numChannelsOf (file : List Nat) : Nat :=
  leNat (bytesAt (file.take 33000) 22 2)

/-- Declared metadata-skip size, 4 bytes at offset 40. -/
def metaSizeOf (file : List Nat) : Nat :=
  leNat (bytesAt (file.take 33000) 40 4)

/-- Payload sub-chunk size, 4 bytes just after the skipped metadata
block and the 4-byte `Subchunk2ID`. -/
def sub2SizeOf (file : List Nat) : Nat :=
  leNat (bytesAt (file.take 33000) (48 + metaSizeOf file) 4)

/-- Offset of the first byte after the audio payload: the cumulative
fixed fields (52 bytes) plus the two declared sizes; the code seeks here
and `read()`s the rest of the file. -/
def payloadEnd (file : List Nat) : Nat :=
  52 + metaSizeOf file + sub2SizeOf file

/-- The trailer blob: every byte after the payload end offset. -/
def extraBytesOf (file : List Nat) : List Nat :=
  file.drop (payloadEnd file)

/-- The fixed-field portion of the header, read at the cumulative
offsets of `bnk.py` lines 48-99; all calibration fields absent. -/
def fixedHeader (file : List Nat) : BnkHeader :=
  let x := file.take 33000
  { ChunkID := strOf (bytesAt x 0 4)
    ChunkSize := leNat (bytesAt x 4 4)
    Format := strOf (bytesAt x 8 4)
    Subchunk1ID := strOf (bytesAt x 12 4)
    Subchunk1Size := leNat (bytesAt x 16 4)
    AudioFormat := leNat (bytesAt x 20 2)
    NumChannels := numChannelsOf file
    SampleRate := leNat (bytesAt x 24 4)
    ByteRate := leNat (bytesAt x 28 4)
    BlockAlign := leNat (bytesAt x 32 2)
    BitsPerSample := leNat (bytesAt x 34 2)
    Meta := strOf (bytesAt x 36 4)
    MetaSize := metaSizeOf file
    Subchunk2ID := strOf (bytesAt x (44 + metaSizeOf file) 4)
    Subchunk2Size := sub2SizeOf file
    ExtraBytes := extraBytesOf file
    Date := none
    Transducer := none
    Sensitivity := none
    Scale := none
    UnitName := none
    Label := none
    ChannelUnits := none
    ChannelNames := none }

/-- Token list the code walks: `ExtraBytes[8:].split(b'\x00')` with
empty pieces filtered out (`bnk.py` lines 110-112). -/
def metaTokens (blob : List Nat) : List (List Nat) :=
  (splitOnByte 0 (blob.drop 8)).filter (fun t => t ≠ [])

/-- Modelled from the spec: `MetadataFields` is the "ordered sequence of
decoded text tokens obtained by splitting TrailerBlob on the null byte
and discarding empty tokens" — stated over the whole blob, with no bytes
removed first.  Kept separate from `metaTokens` (translated from the
code) so the two can be compared. -/
def metadataFieldsSpec (blob : List Nat) : List (List Nat) :=
  (splitOnByte 0 blob).filter (fun t => t ≠ [])

/-- Per-channel positional walk (`bnk.py` lines 119-125): starting at
token index `idx`, each channel consumes a transducer token, then a
sensitivity token converted by `float` and 5 skipped tokens, then a
scale token converted by `float` and 3 skipped tokens (11 tokens per
channel); returns the three lists and the index after the walk. -/
def parseChannels (toks : List (List Nat)) : Nat → Nat → Except PyErr (List String × List ℚ × List ℚ × Nat)
  | 0, idx => .ok ([], [], [], idx)
  | c + 1, idx =>
    match toks[idx]? with
    | none => .error .indexError
    | some tT =>
      match toks[idx + 1]? with
      | none => .error .indexError
      | some sT =>
        match pyFloat (strOf sT) with
        | none => .error (.valueErrorFloat (strOf sT))
        | some sens =>
          match toks[idx + 7]? with
          | none => .error .indexError
          | some cT =>
            match pyFloat (strOf cT) with
            | none => .error (.valueErrorFloat (strOf cT))
            | some sc =>
              match parseChannels toks c (idx + 11) with
              | .error e => .error e
              | .ok (ts, ss, scs, fin) => .ok (strOf tT :: ts, sens :: ss, sc :: scs, fin)

/-- The fixed UTC boilerplate phrase removed from labels. -/
def utcText : List Char :=
  ( ". Recording date/time is in UTC.").toList

/-- Label decoding (`bnk.py` lines 128-131): split once on the first
colon and keep the remainder (`IndexError` when there is no colon),
strip exactly one leading character, then delete every occurrence of the
UTC boilerplate phrase. -/
def labelDecode (s : List Char) : Except PyErr (List Char) :=
  match splitFirst [':'] s with
  | none => .error .indexError
  | some p => .ok (replaceAll utcText [] (p.2.drop 1))

/-- Section marker text `[Channel k]` searched in the setup block. -/
def chanMarker (k : Nat) : List Char :=
  ( "[Channel " ++ toString k ++ "]").toList

/-- Key text `Unit=`. -/
def unitKey : List Char :=
  ( "Unit=").toList

/-- Key text `Name=`. -/
def nameKey : List Char :=
  ( "Name=").toList

/-- The channel-info window (`bnk.py` lines 139-140): the text up to the
next `[`, or — matching Python's `s[:info_stop]` with `find` = `-1` —
all but the last character when no `[` follows. -/
def chanInfo (sAfter : List Char) : List Char :=
  match strFind ['['] sAfter with
  | some j => sAfter.take j
  | none => sAfter.take (sAfter.length - 1)

/-- Everything before the last newline, Python `s.rsplit('\n', 1)[0]`. -/
def dropFromLastNL (s : List Char) : List Char :=
  match lastIdxOf '\n' s with
  | some i => s.take i
  | none => s

/-- Setup-block walk (`bnk.py` lines 136-144) for channels `k`,
`k+1`, ...: find the marker for channel `k` (Python `find` returns `-1`
when missing, so the slice start becomes `-1 + 12 = 11`), slice the rest,
cut the channel-info window, and extract the `Unit=`/`Name=` values
(indexing `[1]` of a 1-element split raises `IndexError`). -/
def parseSetupGo : Nat → Nat → List Char → Except PyErr (List String × List String)
  | 0, _, _ => .ok ([], [])
  | c + 1, k, s =>
    let start := match strFind (chanMarker k) s with
      | some i => i + 12
      | none => 11
    let rest := s.drop start
    let ci := chanInfo rest
    match (splitOnSub unitKey ci)[1]? with
    | none => .error .indexError
    | some u1 =>
      match (splitOnSub nameKey ci)[1]? with
      | none => .error .indexError
      | some n1 =>
        match parseSetupGo c (k + 1) rest with
        | .error e => .error e
        | .ok p =>
          .ok (String.mk (u1.takeWhile (fun ch => ch ≠ '\n')) :: p.1,
               String.mk (dropFromLastNL n1) :: p.2)

/-- Metadata extracted from a non-empty trailer. -/
structure MetaOut where
  date : String
  transducer : List String
  sensitivity : List ℚ
  scale : List ℚ
  unitName : String
  label : String
  channelUnits : List String
  channelNames : List String
deriving DecidableEq, Repr

/-- Positional decode of the trailer token list (`bnk.py` lines
116-144): token 1 is the date, tokens from index 2 are the per-channel
walk, then the global unit name at the final index, the label one past
it, and the setup block three past it. -/
def parseMetaTokens (numCh : Nat) (toks : List (List Nat)) : Except PyErr MetaOut :=
  match toks[1]? with
  | none => .error .indexError
  | some dateT =>
    match parseChannels toks numCh 2 with
    | .error e => .error e
    | .ok (ts, ss, scs, fin) =>
      match toks[fin]? with
      | none => .error .indexError
      | some uT =>
        match toks[fin + 1]? with
        | none => .error .indexError
        | some lT =>
          match labelDecode (strOf lT).toList with
          | .error e => .error e
          | .ok lbl =>
            match toks[fin + 3]? with
            | none => .error .indexError
            | some sT =>
              match parseSetupGo numCh 1 (strOf sT).toList with
              | .error e => .error e
              | .ok p =>
                .ok { date := strOf dateT
                      transducer := ts
                      sensitivity := ss
                      scale := scs
                      unitName := strOf uT
                      label := String.mk lbl
                      channelUnits := p.1
                      channelNames := p.2 }

/-- Install the trailer metadata into the header record. -/
def applyMeta (h : BnkHeader) (m : MetaOut) : BnkHeader :=
  { h with
    Date := some m.date
    Transducer := some m.transducer
    Sensitivity := some m.sensitivity
    Scale := some m.scale
    UnitName := some m.unitName
    Label := some m.label
    ChannelUnits := some m.channelUnits
    ChannelNames := some m.channelNames }

/-- `WavHeader` (`bnk.py` lines 27-156): read the fixed fields, then, if
any bytes follow the payload, decode the trailer; an empty trailer is
returned as-is with every calibration field absent. -/
def WavHeader (file : List Nat) : Except PyErr BnkHeader :=
  if extraBytesOf file = [] then .ok (fixedHeader file)
  else
    match parseMetaTokens (numChannelsOf file) (metaTokens (extraBytesOf file)) with
    | .error e => .error e
    | .ok m => .ok (applyMeta (fixedHeader file) m)

/-- The sample window `frames[start:stop]` that `soundfile.read` returns
for the requested range. -/
def pyWindow (start : Nat) (stop : Option Nat) (ch : List ℚ) : List ℚ :=
  match stop with
  | none => ch.drop start
  | some t => (ch.take t).drop start

/-- The scaling loop of `OpenWav` (`bnk.py` lines 182-184):
`for x in range(n): wav_data[:,x] = header['Scale'][x] * wav_data[:,x]`.
A missing `Scale` key raises `KeyError` on the first iteration; running
past either list raises `IndexError` (the `Scale` lookup is evaluated
first); channels beyond `n` are left untouched. -/
def scaleChannels : Option (List ℚ) → Nat → List (List ℚ) → Except PyErr (List (List ℚ))
  | _, 0, w => .ok w
  | none, _ + 1, _ => .error (.keyError "Scale")
  | some [], _ + 1, _ => .error .indexError
  | some (_ :: _), _ + 1, [] => .error .indexError
  | some (s :: ss), k + 1, ch :: rest =>
    match scaleChannels (some ss) k rest with
    | .error e => .error e
    | .ok r => .ok (ch.map (fun v => s * v) :: r)

/-- `OpenWav` (`bnk.py` lines 158-199): run `WavHeader`, take the PCM
sample window the soundfile collaborator decodes (`rawData`, one list
per channel, restricted by `start`/`stop`), and scale each of the
header's channels by its scale factor.  The JSON sidecar read does not
affect the scaled data and is omitted. -/
def OpenWav (file : List Nat) (rawData : List (List ℚ)) (start : Nat) (stop : Option Nat) :
    Except PyErr (List (List ℚ) × BnkHeader) :=
  match WavHeader file with
  | .error e => .error e
  | .ok h =>
    match scaleChannels h.Scale h.NumChannels (rawData.map (pyWindow start stop)) with
    | .error e => .error e
    | .ok w => .ok (w, h)

/-- A well-formed one-channel trailer token list: version marker, date,
then the 11-token channel group (transducer, sensitivity `1.0`, five
skipped tokens, scale `0.5`, three skipped tokens), unit name, label,
skipped token, setup block. -/
def exToks : List (List Nat) :=
  [asciiBytes "2.10", asciiBytes "2024-01-01", asciiBytes "T1", asciiBytes "1.0",
   asciiBytes "x", asciiBytes "x", asciiBytes "x", asciiBytes "x", asciiBytes "x",
   asciiBytes "0.5", asciiBytes "x", asciiBytes "x", asciiBytes "x", asciiBytes "V",
   asciiBytes "Label: L. Recording date/time is in UTC.", asciiBytes "x",
   asciiBytes "[Channel 1]\nUnit=V\nName=N1\n["]

/-- A 52-byte file holding exactly the fixed header fields (one channel,
declared metadata-skip size 0, payload size 0) and nothing after the
payload: the minimal valid no-trailer input. -/
def fixedBytes : List Nat :=
  [82, 73, 70, 70, 0, 0, 0, 0, 87, 65, 86, 69, 102, 109, 116, 32, 16, 0, 0, 0, 1, 0, 1, 0,
   0, 125, 0, 0, 0, 0, 0, 0, 2, 0, 16, 0, 66, 110, 75, 33, 0, 0, 0, 0, 100, 97, 116, 97,
   0, 0, 0, 0]

/-- A trailer blob: 8 ignored bytes followed by the tokens of `exToks`
separated by null bytes. -/
def exBlob : List Nat :=
  List.replicate 8 120 ++ List.intercalate [0] exToks

/-- A complete one-channel file with trailer: scale factor `0.5`. -/
def exFile : List Nat :=
  fixedBytes ++ exBlob

/-- The header `WavHeader` extracts from `exFile`. -/
def exHeader : BnkHeader :=
  { ChunkID := "RIFF"
    ChunkSize := 0
    Format := "WAVE"
    Subchunk1ID := "fmt "
    Subchunk1Size := 16
    AudioFormat := 1
    NumChannels := 1
    SampleRate := 32000
    ByteRate := 0
    BlockAlign := 2
    BitsPerSample := 16
    Meta := "BnK!"
    MetaSize := 0
    Subchunk2ID := "data"
    Subchunk2Size := 0
    ExtraBytes := exBlob
    Date := some "2024-01-01"
    Transducer := some ["T1"]
    Sensitivity := some [1]
    Scale := some [(1 : ℚ)/2]
    UnitName := some "V"
    Label := some "L"
    ChannelUnits := some ["V"]
    ChannelNames := some ["N1"] }

/-- The trailer metadata extracted from `exToks`. -/
def exMeta : MetaOut :=
  { date := "2024-01-01"
    transducer := ["T1"]
    sensitivity := [1]
    scale := [(1 : ℚ)/2]
    unitName := "V"
    label := "L"
    channelUnits := ["V"]
    channelNames := ["N1"] }

/-- The spec's label-decoding example input (note the two spaces after
the colon). -/
def exLabelField : List Char :=
  ( "Label:  My Recording. Recording date/time is in UTC.").toList

/-- A three-channel setup block whose `[Channel 3]` marker is missing;
text with `Unit=`/`Name=` keys follows the second channel's section. -/
def exSetupMissing3 : List Char :=
  ( "[Channel 1]\nUnit=V\nName=A\n[Channel 2]\nUnit=V\nName=B\nUnit=W\nName=C\n").toList

/-- A trailer token list whose channel-0 sensitivity token is the
non-numeric text `abc`. -/
def exBadSens0 : List (List Nat) :=
  [asciiBytes "2.10", asciiBytes "d", asciiBytes "T0", asciiBytes "abc"]

/-- A trailer token list whose channel 0 is well formed and whose
channel-1 sensitivity token is the non-numeric text `abc`. -/
def exBadSens1 : List (List Nat) :=
  [asciiBytes "2.10", asciiBytes "d", asciiBytes "T0", asciiBytes "1.0",
   asciiBytes "x", asciiBytes "x", asciiBytes "x", asciiBytes "x", asciiBytes "x",
   asciiBytes "0.5", asciiBytes "x", asciiBytes "x", asciiBytes "x",
   asciiBytes "T1", asciiBytes "abc"]

/-- A trailer blob whose first 8 bytes contain trailer content (the
letters `AAAAAAAA`) before a null byte and one more token. -/
def exC8Blob : List Nat :=
  List.replicate 8 65 ++ [0, 66]

/-- The payload end offset is at least 52 bytes (the fixed fields),
whatever the two declared sizes are. -/
theorem payloadEnd_ge (file : List Nat) : 52 ≤ payloadEnd file := by
  unfold payloadEnd
  omega

/-- A file shorter than the fixed fields has an empty trailer region. -/
theorem extraBytesOf_eq_nil_of_short (file : List Nat) (h : file.length < 52) :
    extraBytesOf file = [] := by
  unfold extraBytesOf
  exact List.drop_eq_nil_of_le (le_trans (le_of_lt h) (payloadEnd_ge file))

/-- Claim C2 (corrected by `c2_counterexample`): `WavHeader` cannot fail
on a truncated input; there is no `TruncatedHeaderError` anywhere in the
code.  For every input with fewer bytes than the 44 fixed-field bytes it
reads before the declared sizes, the numpy slices merely come out short,
`int.from_bytes` of a short or empty slice yields a number (0 when
empty), the joined id strings come out short, and the function returns a
partial header with the trailer treated as absent. -/
theorem c2_wavheader_total_on_short_input (file : List Nat) (hshort : file.length < 44) :
    WavHeader file = .ok (fixedHeader file) ∧ (fixedHeader file).Scale = none := by
  have hempty : extraBytesOf file = [] := extraBytesOf_eq_nil_of_short file (by omega)
  exact ⟨by simp [WavHeader, hempty], rfl⟩

/-- Claim C2 witness: the empty input is shorter than the fixed fields
and `WavHeader` still succeeds. -/
theorem c2_witness :
    ([] : List Nat).length < 44 ∧ WavHeader ([] : List Nat) = .ok (fixedHeader []) := by
  exact ⟨by decide, (c2_wavheader_total_on_short_input [] (by decide)).1⟩

/-- Claim C2 counterexample: a 10-byte input (far fewer bytes than the
fixed fields need) does not fail with any error — it returns a partial
header whose present bytes are decoded (`ChunkID = "RIFF"`,
`ChunkSize = 4`, a 2-character `Format`) and whose missing fields come
out as `0`/empty, contradicting "fails with TruncatedHeaderError and
returns no partial header". -/
theorem c2_counterexample :
    WavHeader (asciiBytes "RIFF" ++ [4, 0, 0, 0] ++ asciiBytes "WA") =
      .ok { ChunkID := "RIFF"
            ChunkSize := 4
            Format := "WA"
            Subchunk1ID := ""
            Subchunk1Size := 0
            AudioFormat := 0
            NumChannels := 0
            SampleRate := 0
            ByteRate := 0
            BlockAlign := 0
            BitsPerSample := 0
            Meta := ""
            MetaSize := 0
            Subchunk2ID := ""
            Subchunk2Size := 0
            ExtraBytes := []
            Date := none
            Transducer := none
            Sensitivity := none
            Scale := none
            UnitName := none
            Label := none
            ChannelUnits := none
            ChannelNames := none } := by
  decide

/-- Claim C3 counterexample: the spec's example label field does not
decode to `"My Recording."`. -/
theorem c3_counterexample :
    labelDecode exLabelField ≠ .ok ( "My Recording.").toList := by
  decide

/-- Claim C3 (corrected): the mechanism is as described — split once on
the first colon, take the remainder, strip exactly one leading
character, remove the UTC boilerplate phrase — but on the spec's example
input that mechanism yields `" My Recording"`: one of the two spaces
after the colon survives the single-character strip, and the boilerplate
removal also consumes the period that precedes the phrase. -/
theorem c3_label_decoding :
    labelDecode exLabelField = .ok ( " My Recording").toList := by
  decide

/-- Claim C4: when the trailer region is empty, `WavHeader` returns
successfully and every calibration field is absent; absence is an `.ok`
outcome, so it is distinguishable from a malformed trailer, which
surfaces as `.error`. -/
theorem c4_empty_trailer_ok (file : List Nat) (hempty : extraBytesOf file = []) :
    WavHeader file = .ok (fixedHeader file) ∧
    (fixedHeader file).Scale = none ∧
    (fixedHeader file).Sensitivity = none ∧
    (fixedHeader file).Transducer = none ∧
    (fixedHeader file).UnitName = none ∧
    (fixedHeader file).Label = none ∧
    (fixedHeader file).ChannelUnits = none ∧
    (fixedHeader file).ChannelNames = none ∧
    (fixedHeader file).Date = none := by
  exact ⟨by simp [WavHeader, hempty], rfl, rfl, rfl, rfl, rfl, rfl, rfl, rfl⟩

/-- Claim C4 witness: a complete 52-byte one-channel file with nothing
after the payload decodes successfully with no calibration fields. -/
theorem c4_witness :
    extraBytesOf fixedBytes = [] ∧ WavHeader fixedBytes = .ok (fixedHeader fixedBytes) := by
  exact ⟨by decide, (c4_empty_trailer_ok fixedBytes (by decide)).1⟩

/-- Claim C5 counterexample: a failing sensitivity token produces the
bare `float()` `ValueError`, whose payload is only the offending token
text.  A failure at channel 0 (`exBadSens0`) and a failure at channel 1
(`exBadSens1`) raise byte-for-byte identical errors, so the error names
neither the expected field nor the channel index at which the walk
failed — there is no `MalformedMetadataError` in the code. -/
theorem c5_counterexample :
    parseMetaTokens 1 exBadSens0 = .error (.valueErrorFloat "abc") ∧
    parseMetaTokens 2 exBadSens1 = .error (.valueErrorFloat "abc") := by
  constructor
  · decide
  · decide

/-- Claim C5 (corrected): whenever the sensitivity token of any channel
group fails float conversion, the walk aborts with a `ValueError`
carrying only the token text (the channel count `c` and position `idx`
do not influence the error value). -/
theorem c5_value_error_on_bad_sensitivity (toks : List (List Nat)) (c idx : Nat)
    (tT bs : List Nat) (ht : toks[idx]? = some tT) (hs : toks[idx + 1]? = some bs)
    (hf : pyFloat (strOf bs) = none) :
    parseChannels toks (c + 1) idx = .error (.valueErrorFloat (strOf bs)) := by
  simp only [parseChannels, ht, hs, hf]

/-- Claim C5 witness: the non-numeric token `abc` at the channel-0
sensitivity position of `exBadSens0` aborts the walk. -/
theorem c5_witness :
    exBadSens0[2]? = some (asciiBytes "T0") ∧
    exBadSens0[3]? = some (asciiBytes "abc") ∧
    pyFloat (strOf (asciiBytes "abc")) = none ∧
    parseChannels exBadSens0 1 2 = .error (.valueErrorFloat (strOf (asciiBytes "abc"))) := by
  refine ⟨by decide, by decide, by decide, ?_⟩
  exact c5_value_error_on_bad_sensitivity exBadSens0 0 2 (asciiBytes "T0") (asciiBytes "abc")
    (by decide) (by decide) (by decide)

/-- Claim C6 counterexample: with three channels and the `[Channel 3]`
marker absent from the setup block, the decode does not fail at all — it
returns unit/name values for all three channels, channel 3's being
scavenged from the text after the slice `setup[11:]` (unit `W`, name
`C`).  No `ChannelSectionNotFoundError` exists in the code. -/
theorem c6_counterexample :
    strFind (chanMarker 3) exSetupMissing3 = none ∧
    parseSetupGo 3 1 exSetupMissing3 = .ok (["V", "V", "W"], ["A", "B\nUnit=W", "C"]) := by
  constructor
  · decide
  · decide

/-- Claim C6 (corrected): a missing channel marker is not detected;
Python's `find` returns `-1`, so the walk slices the remaining setup
text from index 11 and keeps going, producing values from whatever text
follows (see `c6_counterexample`) or — as proved here for any remaining
text short enough that the slice is empty — failing with the unrelated
`IndexError` from indexing `[1]` of the `Unit=` split. -/
theorem c6_missing_marker_continues (c k : Nat) (s : List Char)
    (hmiss : strFind (chanMarker k) s = none) (hshort : s.length ≤ 11) :
    parseSetupGo (c + 1) k s = .error .indexError := by
  have hdrop : s.drop 11 = [] := List.drop_eq_nil_of_le hshort
  simp only [parseSetupGo, hmiss, hdrop]
  rfl

/-- Claim C6 witness: a one-character setup block with no `[Channel 3]`
marker. -/
theorem c6_witness :
    strFind (chanMarker 3) [ 'x' ] = none ∧ parseSetupGo 1 3 [ 'x' ] = .error .indexError := by
  exact ⟨by decide, c6_missing_marker_continues 0 3 [ 'x' ] (by decide) (by decide)⟩

/-- Claim C7 counterexample: `OpenWav` succeeds on a sample array with
two channels although the header declares one — the extra channel is
passed through unscaled, and no `ChannelCountMismatchError` (or any
error) is raised for the disagreement. -/
theorem c7_counterexample :
    WavHeader exFile = .ok exHeader ∧ exHeader.NumChannels = 1 ∧
    OpenWav exFile [[1], [5]] 0 none = .ok ([[(1 : ℚ)/2], [5]], exHeader) := by
  refine ⟨by decide, by decide, by decide⟩

/-- Claim C7 (corrected): `OpenWav` has no channel-count check.  When
the decoded sample array has fewer channels than the header declares,
the scaling loop runs off the array and raises a bare `IndexError`
(never a `ChannelCountMismatchError`); when it has more, the call
succeeds and the surplus channels stay unscaled (`c7_counterexample`). -/
theorem c7_index_error_on_fewer_channels (scales : List ℚ) :
    ∀ (n : Nat) (w : List (List ℚ)), scales.length = n → w.length < n →
    scaleChannels (some scales) n w = .error .indexError := by
  induction scales with
  | nil =>
    intro n w hlen hlt
    simp only [List.length_nil] at hlen
    omega
  | cons s ss ih =>
    intro n w hlen hlt
    cases n with
    | zero => simp at hlen
    | succ k =>
      cases w with
      | nil => rfl
      | cons ch rest =>
        have hlen' : ss.length = k := by simpa using hlen
        have hlt' : rest.length < k := by simpa using hlt
        simp only [scaleChannels, ih k rest hlen' hlt']

/-- Claim C7 witness: one declared channel, an empty sample array. -/
theorem c7_witness :
    ([(2 : ℚ)]).length = 1 ∧ ([] : List (List ℚ)).length < 1 ∧
    scaleChannels (some [(2 : ℚ)]) 1 [] = .error .indexError := by
  exact ⟨by decide, by decide,
    c7_index_error_on_fewer_channels [(2 : ℚ)] 1 [] (by decide) (by decide)⟩

/-- Claim C8 counterexample: the code does remove bytes before
splitting — `ExtraBytes[8:]` discards the first 8 trailer bytes — so on
a blob whose first 8 bytes hold non-null content the code's token list
differs from the spec's whole-blob split. -/
theorem c8_counterexample : metaTokens exC8Blob ≠ metadataFieldsSpec exC8Blob := by
  decide

/-- Claim C8 (corrected): for every trailer blob, the token list the
walk consumes equals the spec's MetadataFields split applied to the blob
with its first 8 bytes removed; equivalently, prepending any 8 bytes in
front of a blob leaves exactly that blob's spec split. -/
theorem c8_tokens_after_skip8 (pre blob : List Nat) (hpre : pre.length = 8) :
    metaTokens (pre ++ blob) = metadataFieldsSpec blob := by
  unfold metaTokens metadataFieldsSpec
  rw [← hpre, List.drop_left]

/-- Claim C8 witness: an 8-byte prefix followed by two tokens. -/
theorem c8_witness :
    (asciiBytes "HEADERXX").length = 8 ∧
    metaTokens (asciiBytes "HEADERXX" ++ [97, 0, 98]) = metadataFieldsSpec [97, 0, 98] := by
  exact ⟨by decide, c8_tokens_after_skip8 (asciiBytes "HEADERXX") [97, 0, 98] (by decide)⟩

/-- The scaling loop on a sample array with at least as many channels
as the scale list: the first `scales.length` channels are multiplied
pointwise by their scale factors and the rest pass through. -/
theorem scaleChannels_ok_of_le (scales : List ℚ) :
    ∀ w : List (List ℚ), scales.length ≤ w.length →
    scaleChannels (some scales) scales.length w =
      .ok (List.zipWith (fun s ch => ch.map (fun v => s * v)) scales (w.take scales.length) ++
        w.drop scales.length) := by
  induction scales with
  | nil =>
    intro w _
    simp [scaleChannels]
  | cons s ss ih =>
    intro w hle
    cases w with
    | nil => simp at hle
    | cons ch rest =>
      have hle' : ss.length ≤ rest.length := by simpa using hle
      simp only [List.length_cons, scaleChannels, ih rest hle']
      simp [List.take_succ_cons, List.drop_succ_cons]

/-- Claim C1: when the header decodes with a scale list matching the
channel count and the sample array has one sequence per channel,
`OpenWav` first restricts each channel to the requested `start`/`stop`
window and then multiplies every sample of channel `i` by that
channel's scale factor. -/
theorem c1_openwav_scales_windowed_channels (file : List Nat) (raw : List (List ℚ))
    (start : Nat) (stop : Option Nat) (h : BnkHeader) (scales : List ℚ)
    (hw : WavHeader file = .ok h) (hs : h.Scale = some scales)
    (hlen : scales.length = h.NumChannels) (hraw : raw.length = h.NumChannels) :
    OpenWav file raw start stop =
      .ok (List.zipWith (fun s ch => (pyWindow start stop ch).map (fun v => s * v)) scales raw,
        h) := by
  have hwl : (raw.map (pyWindow start stop)).length = scales.length := by
    rw [List.length_map, hraw, hlen]
  have hsc : scaleChannels h.Scale h.NumChannels (raw.map (pyWindow start stop)) =
      .ok (List.zipWith (fun s ch => (pyWindow start stop ch).map (fun v => s * v)) scales raw) := by
    rw [hs, ← hlen,
      scaleChannels_ok_of_le scales (raw.map (pyWindow start stop)) (le_of_eq hwl.symm)]
    rw [← hwl, List.take_length, List.drop_length, List.append_nil, List.zipWith_map_right]
  simp only [OpenWav, hw, hsc]

/-- Claim C1 witness: the spec's example on a real decode — raw samples
`[1.0, 2.0]` with scale `0.5` give `[0.5, 1.0]`, and the sample range
`[1, 2)` gives only the scaled sample `[1.0]`. -/
theorem c1_witness :
    WavHeader exFile = .ok exHeader ∧
    OpenWav exFile [[1, 2]] 0 none = .ok ([[(1 : ℚ)/2, 1]], exHeader) ∧
    OpenWav exFile [[1, 2]] 1 (some 2) = .ok ([[1]], exHeader) := by
  refine ⟨by decide, ?_, ?_⟩
  · rw [c1_openwav_scales_windowed_channels exFile [[1, 2]] 0 none exHeader [(1 : ℚ)/2]
      (by decide) (by decide) (by decide) (by decide)]
    decide
  · rw [c1_openwav_scales_windowed_channels exFile [[1, 2]] 1 (some 2) exHeader [(1 : ℚ)/2]
      (by decide) (by decide) (by decide) (by decide)]
    decide

/-- Shape of a successful per-channel walk starting at token index
`idx`: the final index advances by exactly 11 tokens per channel, and
channel `i`'s transducer, sensitivity and scale tokens sit at offsets
`11*i`, `11*i + 1` and `11*i + 7` from `idx`, with the two float fields
obtained by `float` conversion of their tokens. -/
theorem parseChannels_walk (toks : List (List Nat)) :
    ∀ (c idx : Nat) (ts : List String) (ss scs : List ℚ) (fin : Nat),
    parseChannels toks c idx = .ok (ts, ss, scs, fin) →
    fin = idx + 11 * c ∧
    ∀ i, i < c → ∃ tT sT cT,
      toks[idx + 11 * i]? = some tT ∧
      toks[idx + 11 * i + 1]? = some sT ∧
      toks[idx + 11 * i + 7]? = some cT ∧
      ts[i]? = some (strOf tT) ∧
      (∃ q, pyFloat (strOf sT) = some q ∧ ss[i]? = some q) ∧
      (∃ q, pyFloat (strOf cT) = some q ∧ scs[i]? = some q) := by
  intro c
  induction c with
  | zero =>
    intro idx ts ss scs fin h
    simp only [parseChannels, Except.ok.injEq, Prod.mk.injEq] at h
    obtain ⟨h1, h2, h3, h4⟩ := h
    subst h1
    subst h2
    subst h3
    subst h4
    exact ⟨by omega, fun i hi => absurd hi (by omega)⟩
  | succ c ih =>
    intro idx ts ss scs fin h
    simp only [parseChannels] at h
    cases h1 : toks[idx]? with
    | none => simp [h1] at h
    | some tT =>
    cases h2 : toks[idx + 1]? with
    | none => simp [h1, h2] at h
    | some sT =>
    cases hp1 : pyFloat (strOf sT) with
    | none => simp [h1, h2, hp1] at h
    | some sens =>
    cases h3 : toks[idx + 7]? with
    | none => simp [h1, h2, hp1, h3] at h
    | some cT =>
    cases hp2 : pyFloat (strOf cT) with
    | none => simp [h1, h2, hp1, h3, hp2] at h
    | some sc =>
    cases hrec : parseChannels toks c (idx + 11) with
    | error e => simp [h1, h2, hp1, h3, hp2, hrec] at h
    | ok out =>
    obtain ⟨ts', ss', scs', fin'⟩ := out
    simp only [h1, h2, hp1, h3, hp2, hrec, Except.ok.injEq, Prod.mk.injEq] at h
    obtain ⟨hts, hss, hscs, hfin⟩ := h
    subst hts
    subst hss
    subst hscs
    subst hfin
    obtain ⟨hfin', hfact⟩ := ih (idx + 11) ts' ss' scs' fin' hrec
    refine ⟨by omega, ?_⟩
    intro i hi
    cases i with
    | zero =>
      refine ⟨tT, sT, cT, by simpa using h1, by simpa using h2, by simpa using h3, by simp,
        ⟨sens, hp1, by simp⟩, ⟨sc, hp2, by simp⟩⟩
    | succ j =>
      obtain ⟨tT', sT', cT', f1, f2, f3, f4, f5, f6⟩ := hfact j (by omega)
      have e1 : idx + 11 + 11 * j = idx + 11 * (j + 1) := by ring
      rw [e1] at f1 f2 f3
      exact ⟨tT', sT', cT', f1, f2, f3, by simpa using f4, by simpa using f5, by simpa using f6⟩

/-- Claim C9: in every successful decode of a non-empty trailer with
`N` channels, the walk that starts after the version-marker token
(index 0) and the timestamp token (index 1) reads channel `i`'s
transducer token at index `2 + 11*i`, its sensitivity token at
`3 + 11*i` (followed by 5 skipped tokens), and its scale token at
`9 + 11*i` (followed by 3 skipped tokens), and the token read
immediately after the `N` groups — index `2 + 11*N` — is the global
unit name. -/
theorem c9_positional_walk (N : Nat) (toks : List (List Nat)) (m : MetaOut)
    (h : parseMetaTokens N toks = .ok m) :
    (∀ i, i < N → ∃ tT sT cT,
      toks[2 + 11 * i]? = some tT ∧
      toks[3 + 11 * i]? = some sT ∧
      toks[9 + 11 * i]? = some cT ∧
      m.transducer[i]? = some (strOf tT) ∧
      (∃ q, pyFloat (strOf sT) = some q ∧ m.sensitivity[i]? = some q) ∧
      (∃ q, pyFloat (strOf cT) = some q ∧ m.scale[i]? = some q)) ∧
    ∃ uT, toks[2 + 11 * N]? = some uT ∧ m.unitName = strOf uT := by
  simp only [parseMetaTokens] at h
  cases h0 : toks[1]? with
  | none => simp [h0] at h
  | some dateT =>
  cases hpc : parseChannels toks N 2 with
  | error e => simp [h0, hpc] at h
  | ok out =>
  obtain ⟨ts, ss, scs, fin⟩ := out
  cases h4 : toks[fin]? with
  | none => simp [h0, hpc, h4] at h
  | some uT =>
  cases h5 : toks[fin + 1]? with
  | none => simp [h0, hpc, h4, h5] at h
  | some lT =>
  cases h6 : labelDecode (strOf lT).data with
  | error e => simp [h0, hpc, h4, h5, h6] at h
  | ok lbl =>
  cases h7 : toks[fin + 3]? with
  | none => simp [h0, hpc, h4, h5, h6, h7] at h
  | some setupT =>
  cases h8 : parseSetupGo N 1 (strOf setupT).data with
  | error e => simp [h0, hpc, h4, h5, h6, h7, h8] at h
  | ok p =>
  simp only [String.toList, h0, hpc, h4, h5, h6, h7, h8, Except.ok.injEq] at h
  subst h
  obtain ⟨hfin, hfact⟩ := parseChannels_walk toks N 2 ts ss scs fin hpc
  constructor
  · intro i hi
    obtain ⟨tT, sT, cT, f1, f2, f3, f4, f5, f6⟩ := hfact i hi
    have e2 : 2 + 11 * i + 1 = 3 + 11 * i := by omega
    have e3 : 2 + 11 * i + 7 = 9 + 11 * i := by omega
    rw [e2] at f2
    rw [e3] at f3
    exact ⟨tT, sT, cT, f1, f2, f3, f4, f5, f6⟩
  · refine ⟨uT, ?_, rfl⟩
    rw [← hfin]
    exact h4

/-- Claim C9 witness: the one-channel token list `exToks` decodes
successfully and its tokens sit at the claimed positions. -/
theorem c9_witness :
    parseMetaTokens 1 exToks = .ok exMeta ∧
    ((∀ i, i < 1 → ∃ tT sT cT,
      exToks[2 + 11 * i]? = some tT ∧
      exToks[3 + 11 * i]? = some sT ∧
      exToks[9 + 11 * i]? = some cT ∧
      exMeta.transducer[i]? = some (strOf tT) ∧
      (∃ q, pyFloat (strOf sT) = some q ∧ exMeta.sensitivity[i]? = some q) ∧
      (∃ q, pyFloat (strOf cT) = some q ∧ exMeta.scale[i]? = some q)) ∧
    ∃ uT, exToks[2 + 11 * 1]? = some uT ∧ exMeta.unitName = strOf uT) := by
  have hp : parseMetaTokens 1 exToks = .ok exMeta := by decide
  exact ⟨hp, c9_positional_walk 1 exToks exMeta hp⟩

/-- Claim C10: on a file with an empty trailer, `WavHeader` succeeds
with the `Scale` key absent, yet `OpenWav` — which indexes
`header['Scale'][x]` for every channel unconditionally — raises a
`KeyError` on `'Scale'` as soon as there is at least one channel, so
scaled time series require a non-empty trailer even though header-only
decoding treats trailer absence as valid. -/
theorem c10_openwav_keyerror_on_empty_trailer (file : List Nat) (raw : List (List ℚ))
    (start : Nat) (stop : Option Nat) (hempty : extraBytesOf file = [])
    (hch : 0 < numChannelsOf file) :
    WavHeader file = .ok (fixedHeader file) ∧
    (fixedHeader file).Scale = none ∧
    OpenWav file raw start stop = .error (.keyError "Scale") := by
  have hw : WavHeader file = .ok (fixedHeader file) := by simp [WavHeader, hempty]
  refine ⟨hw, rfl, ?_⟩
  cases hnum : (fixedHeader file).NumChannels with
  | zero =>
    have hz : numChannelsOf file = 0 := hnum
    omega
  | succ k =>
    have hsc : scaleChannels (fixedHeader file).Scale (fixedHeader file).NumChannels
        (raw.map (pyWindow start stop)) = .error (.keyError "Scale") := by
      rw [hnum]
      rfl
    simp only [OpenWav, hw, hsc]

/-- Claim C10 witness: the trailerless 52-byte one-channel file. -/
theorem c10_witness :
    extraBytesOf fixedBytes = [] ∧ 0 < numChannelsOf fixedBytes ∧
    OpenWav fixedBytes [[1]] 0 none = .error (.keyError "Scale") := by
  refine ⟨by decide, by decide, ?_⟩
  exact (c10_openwav_keyerror_on_empty_trailer fixedBytes [[1]] 0 none (by decide) (by decide)).2.2
